import Mathlib

/-!
# A verification development for the toil-rnaseq workflow orchestrator

Shallow embedding, in Lean 4, of the orchestration-relevant functions of the
`toil-rnaseq` repository (Python 2), together with theorems settling the
frozen claims about its specification.

Conventions of the embedding:
* Python strings are Lean `String`s; the Python string operations used by the
  source (`strip`, `split`, `startswith`, `endswith`, `in`, `isspace`,
  `lstrip`, `os.path.basename`) are reimplemented below with Python
  semantics (ASCII inputs).
* Fallible Python code (raised `UserError`, `AssertionError`, `TypeError`,
  `IndexError`) is embedded as `Except`.
* The Toil file store is an external collaborator of the repository; where a
  claim needs its semantics it is modelled from the spec (see the doc
  comments of the definitions concerned).
-/

namespace ToilRnaseq

/-- Python `str.isspace()`: true iff the string is nonempty and every
character is whitespace. -/
def pyIsSpace (s : String) : Bool :=
  !s.data.isEmpty && s.data.all Char.isWhitespace

/-- Python `str.startswith(t)`. -/
def pyStartsWith (s t : String) : Bool :=
  t.data.isPrefixOf s.data

/-- Python `str.endswith(t)`. -/
def pyEndsWith (s t : String) : Bool :=
  t.data.isSuffixOf s.data

/-- Python `str.strip()`: drop leading and trailing whitespace. -/
def pyStrip (s : String) : String :=
  String.mk (((s.data.dropWhile Char.isWhitespace).reverse.dropWhile
    Char.isWhitespace).reverse)

/-- Helper for Python `sub in s`: is `needle` a contiguous infix of the list? -/
def infixAux (needle : List Char) : List Char → Bool
  | [] => needle.isEmpty
  | c :: rest => needle.isPrefixOf (c :: rest) || infixAux needle rest

/-- Python substring containment `sub in s`. -/
def containsSub (s sub : String) : Bool :=
  infixAux sub.data s.data

/-- Structural helper for Python `str.split(sep)`: `fuel` bounds the scan
length (each step consumes one element), so `fuel = l.length` reproduces the
left-to-right, non-overlapping scan exactly. -/
def pySplitAux (sep : List Char) : Nat → List Char → List Char → List (List Char)
  | _, [], acc => [acc.reverse]
  | 0, l, acc => [acc.reverse ++ l]
  | fuel + 1, c :: rest, acc =>
    if sep.isPrefixOf (c :: rest) then
      acc.reverse :: pySplitAux sep fuel ((c :: rest).drop sep.length) []
    else pySplitAux sep fuel rest (c :: acc)

/-- Python `str.split(sep)` for a non-empty separator (Python raises
`ValueError` on an empty one; no call site uses one). -/
def pySplit (s sep : String) : List String :=
  if sep.data.isEmpty then [s]
  else (pySplitAux sep.data s.data.length s.data []).map String.mk

/-- `os.path.basename`: the part of a path after the last slash. -/
def basename (p : String) : String :=
  (pySplit p "/").getLastD p

/-- Byte-wise (code-point) comparison on char lists, as Python 2 compares
`str` values for `sorted()`. -/
def charListLe : List Char → List Char → Bool
  | [], _ => true
  | _ :: _, [] => false
  | a :: as, b :: bs =>
      if a.val < b.val then true
      else if b.val < a.val then false
      else charListLe as bs

/-- Stable insertion of a string into a sorted list: after any entries that
compare less-or-equal. -/
def insertSorted (a : String) : List String → List String
  | [] => [a]
  | b :: t => if charListLe b.data a.data then b :: insertSorted a t
              else a :: b :: t

/-- Python `sorted()` on a list of strings (lexicographic by code point,
stable). -/
def pySorted (l : List String) : List String :=
  l.foldr insertSorted []

/-- Python truthiness of a config attribute holding an optional string
(`None` and the empty string are falsy). -/
def pyTruthy : Option String → Bool
  | none => false
  | some s => !s.data.isEmpty

/-- The scheme of a URL as `urlparse(url).scheme` yields it for the
`scheme://...` URLs the workflow handles; empty for scheme-less strings. -/
def urlscheme (s : String) : String :=
  match pySplit s "://" with
  | scheme :: _ :: _ => scheme
  | _ => ""

/-- The Python exceptions the embedded code can raise. -/
inductive PyErr where
  /-- `TypeError`, e.g. subscripting `None`. -/
  | typeError : PyErr
  /-- `IndexError`: list index out of range. -/
  | indexError : PyErr
  /-- `UserError` raised via `require` or `raise UserError`. -/
  | userError : String → PyErr
  /-- A failed `assert` statement. -/
  | assertionError : String → PyErr
deriving DecidableEq

/-- Python subscript `xs[i]` on a value that may be `None`
(`None[i]` raises `TypeError`, an out-of-range index `IndexError`). -/
def pySubscript (xs : Option (List α)) (i : Nat) : Except PyErr α :=
  match xs with
  | none => .error .typeError
  | some l =>
    match l[i]? with
    | some v => .ok v
    | none => .error .indexError

/-- Python subscript `xs[i]` on a list. -/
def pyIndex (l : List α) (i : Nat) : Except PyErr α :=
  pySubscript (some l) i

/-- `utils.require(expression, message)`: raises `UserError` when the
expression is falsy (`src/src/toil_rnaseq/utils/__init__.py:486`). -/
def require (expression : Bool) (message : String) : Except PyErr Unit :=
  if expression then .ok () else .error (.userError message)

/-! ## Artifact deletion (`tools/jobs.py: cleanup_ids`, claim C9)

The Toil file store backing `job.fileStore.deleteGlobalFile` is an external
collaborator of this repository. Modelled from the spec: the artifact store
holds a set of live handles, and "deleting a handle that was never created,
or is already deleted, is a no-op, not an error" (spec section 3). A store
state is the list of live handles. -/

/-- Modelled from the spec: `fileStore.deleteGlobalFile` frees the artifact;
deletion of an absent handle is a no-op and never raises. -/
def deleteGlobalFile (store : List String) (h : String) : List String :=
  store.filter (fun x => x ≠ h)

/-- `tools/jobs.py:9 cleanup_ids`: delete every non-`None` FileStoreID in the
list (`[job.fileStore.deleteGlobalFile(x) for x in ids_to_delete if x is not
None]`). Total: it returns the new store state and cannot raise. -/
def cleanup_ids (store : List String) (ids_to_delete : List (Option String)) :
    List String :=
  ids_to_delete.foldl
    (fun s x => match x with | none => s | some i => deleteGlobalFile s i) store

theorem deleteGlobalFile_absent (store : List String) (h : String)
    (hh : h ∉ store) : deleteGlobalFile store h = store := by
  apply List.filter_eq_self.mpr
  intro a ha
  simp only [decide_eq_true_eq]
  exact fun e => hh (e ▸ ha)

theorem deleteGlobalFile_idem (store : List String) (h : String) :
    deleteGlobalFile (deleteGlobalFile store h) h = deleteGlobalFile store h := by
  simp [deleteGlobalFile, List.filter_filter]

theorem deleteGlobalFile_comm (store : List String) (a b : String) :
    deleteGlobalFile (deleteGlobalFile store a) b
      = deleteGlobalFile (deleteGlobalFile store b) a := by
  simp only [deleteGlobalFile, List.filter_filter]
  apply List.filter_congr
  intro x _
  simp [Bool.and_comm]

theorem cleanup_ids_none_cons (store : List String) (ids : List (Option String)) :
    cleanup_ids store (none :: ids) = cleanup_ids store ids := rfl

theorem cleanup_ids_delete_comm (store : List String) (h : String)
    (ids : List (Option String)) :
    cleanup_ids (deleteGlobalFile store h) ids
      = deleteGlobalFile (cleanup_ids store ids) h := by
  induction ids generalizing store with
  | nil => rfl
  | cons x t ih =>
    cases x with
    | none => exact ih store
    | some i =>
      simp only [cleanup_ids, List.foldl_cons] at *
      rw [deleteGlobalFile_comm store h i, ih]

theorem cleanup_ids_idem (store : List String) (ids : List (Option String)) :
    cleanup_ids (cleanup_ids store ids) ids = cleanup_ids store ids := by
  induction ids generalizing store with
  | nil => rfl
  | cons x t ih =>
    cases x with
    | none => exact ih store
    | some i =>
      simp only [cleanup_ids, List.foldl_cons]
      have comm := cleanup_ids_delete_comm store i t
      simp only [cleanup_ids] at comm
      rw [comm, deleteGlobalFile_idem]
      have := ih (deleteGlobalFile store i)
      simp only [cleanup_ids] at this
      rw [← comm, this]

/-! ## Batch fan-out scheduler (`tools/jobs.py: map_job`,
`utils/__init__.py: partitions`, claim C4)

`map_job(job, func, inputs, *args)` computes `partition_size =
len(inputs) / 100` (Python 2 integer division). When `partition_size > 1`
it spawns one child `map_job` per chunk of `partitions(inputs,
partition_size)`; otherwise it spawns one child `func(sample, *args)` per
item. -/

/-- Structural helper for `partitions`: `fuel` bounds the number of list
elements still to be consumed (each step consumes at least one), so
`fuel = l.length` reproduces the source loop exactly. -/
def partitionsAux (s : Nat) : Nat → List α → List (List α)
  | _, [] => []
  | 0, _ :: _ => []
  | fuel + 1, x :: xs =>
      (x :: xs).take (s + 1) :: partitionsAux s fuel ((x :: xs).drop (s + 1))

/-- `utils/__init__.py:414 partitions(l, partition_size)`: the contiguous
slices `l[i:i+partition_size]` for `i = 0, partition_size, ...`. The source
raises `ValueError` from `xrange` when `partition_size` is `0`; `map_job`
only calls it with `partition_size >= 2`, and for `0` this embedding
returns `[]`. -/
def partitions (l : List α) (partition_size : Nat) : List (List α) :=
  match partition_size with
  | 0 => []
  | s + 1 => partitionsAux s l.length l

theorem partitionsAux_congr (s : Nat) :
    ∀ (f1 f2 : Nat) (l : List α), l.length ≤ f1 → l.length ≤ f2 →
      partitionsAux s f1 l = partitionsAux s f2 l := by
  intro f1
  induction f1 with
  | zero =>
    intro f2 l h1 _
    have : l = [] := List.eq_nil_of_length_eq_zero (by omega)
    subst this
    cases f2 <;> rfl
  | succ f ih =>
    intro f2 l h1 h2
    cases l with
    | nil => cases f2 <;> rfl
    | cons x xs =>
      cases f2 with
      | zero => simp at h2
      | succ f2' =>
        simp only [partitionsAux]
        congr 1
        apply ih
        · simp only [List.length_drop, List.length_cons] at *
          omega
        · simp only [List.length_drop, List.length_cons] at *
          omega

theorem partitions_nil (s : Nat) : partitions ([] : List α) s = [] := by
  cases s <;> rfl

theorem partitions_cons (x : α) (xs : List α) (s : Nat) :
    partitions (x :: xs) (s + 1)
      = (x :: xs).take (s + 1) :: partitions ((x :: xs).drop (s + 1)) (s + 1) := by
  show partitionsAux s (xs.length + 1) (x :: xs) = _
  rw [show partitionsAux s (xs.length + 1) (x :: xs)
      = (x :: xs).take (s + 1) :: partitionsAux s xs.length ((x :: xs).drop (s + 1))
    from rfl]
  congr 1
  apply partitionsAux_congr
  · simp only [List.length_drop, List.length_cons]
    omega
  · exact Nat.le_refl _

/-- The direct children spawned by one `map_job` scheduling node
(`tools/jobs.py:19`): one chunk per child in the partitioned branch, one
singleton per item otherwise. -/
def map_job_children (inputs : List α) : List (List α) :=
  if inputs.length / 100 > 1 then partitions inputs (inputs.length / 100)
  else inputs.map (fun sample => [sample])

theorem length_mem_partitionsAux {s : Nat} :
    ∀ {fuel : Nat} {l c : List α}, c ∈ partitionsAux s fuel l →
      0 < c.length ∧ c.length ≤ s + 1 := by
  intro fuel
  induction fuel with
  | zero =>
    intro l c hc
    cases l <;> simp [partitionsAux] at hc
  | succ f ih =>
    intro l c hc
    cases l with
    | nil => simp [partitionsAux] at hc
    | cons x xs =>
      rw [partitionsAux] at hc
      rcases List.mem_cons.mp hc with h | h
      · subst h
        refine ⟨by simp, ?_⟩
        simp
      · exact ih h

theorem length_mem_partitions {s : Nat} {l c : List α}
    (hc : c ∈ partitions l s) : 0 < c.length ∧ c.length ≤ s := by
  cases s with
  | zero => simp [partitions] at hc
  | succ s => exact length_mem_partitionsAux hc

theorem flatten_partitionsAux {s : Nat} :
    ∀ {fuel : Nat} {l : List α}, l.length ≤ fuel →
      (partitionsAux s fuel l).flatten = l := by
  intro fuel
  induction fuel with
  | zero =>
    intro l hl
    have : l = [] := List.eq_nil_of_length_eq_zero (by omega)
    subst this
    rfl
  | succ f ih =>
    intro l hl
    cases l with
    | nil => rfl
    | cons x xs =>
      rw [partitionsAux, List.flatten_cons,
        ih (by simp only [List.length_drop, List.length_cons] at *; omega),
        List.take_append_drop]

theorem flatten_partitions {s : Nat} (hs : 0 < s) (l : List α) :
    (partitions l s).flatten = l := by
  cases s with
  | zero => omega
  | succ s => exact flatten_partitionsAux (Nat.le_refl _)

theorem flatten_map_singleton (l : List α) :
    (l.map (fun sample => [sample])).flatten = l := by
  induction l with
  | nil => rfl
  | cons a t ih => simp [ih]

theorem dropLast_partitionsAux_length {s : Nat} :
    ∀ {fuel : Nat} {l : List α}, l.length ≤ fuel →
      ∀ c ∈ (partitionsAux s fuel l).dropLast, c.length = s + 1 := by
  intro fuel
  induction fuel with
  | zero =>
    intro l hl c hc
    have : l = [] := List.eq_nil_of_length_eq_zero (by omega)
    subst this
    simp [partitionsAux] at hc
  | succ f ih =>
    intro l hl c hc
    cases l with
    | nil => simp [partitionsAux] at hc
    | cons x xs =>
      rw [partitionsAux] at hc
      rcases hrest : partitionsAux s f ((x :: xs).drop (s + 1)) with _ | ⟨a, t⟩
      · rw [hrest] at hc
        simp at hc
      · rw [hrest] at hc
        rw [List.dropLast_cons_of_ne_nil (by simp)] at hc
        rcases List.mem_cons.mp hc with h | h
        · subst h
          have hdrop : (x :: xs).drop (s + 1) ≠ [] := by
            intro hd
            rw [hd] at hrest
            cases f <;> simp [partitionsAux] at hrest
          have hlen : s + 1 < (x :: xs).length := by
            by_contra hcon
            exact hdrop (List.drop_eq_nil_of_le (by omega))
          simp only [List.length_take, List.length_cons] at *
          omega
        · rw [← hrest] at h
          exact ih (by simp only [List.length_drop, List.length_cons] at *; omega)
            c h

theorem dropLast_partitions_length {s : Nat} {l : List α} :
    ∀ c ∈ (partitions l s).dropLast, c.length = s := by
  cases s with
  | zero => simp [partitions]
  | succ s => exact dropLast_partitionsAux_length (Nat.le_refl _)

/-- The list of leaf invocations of the `map_job` recursion, in the order the
scheduling tree spawns them: each leaf is one invocation of
`func(sample, *args)`. -/
def map_job_leaf_items (inputs : List α) : List α :=
  if 1 < inputs.length / 100 then
    ((partitions inputs (inputs.length / 100)).attach.map
      (fun c => map_job_leaf_items c.1)).flatten
  else inputs
termination_by inputs.length
decreasing_by
  have hlen := length_mem_partitions c.2
  omega

/-- Every `map_job` recursion visits each input item exactly once, in input
order. -/
theorem map_job_leaf_items_eq (inputs : List α) :
    map_job_leaf_items inputs = inputs := by
  induction inputs using map_job_leaf_items.induct with
  | case1 l hps ih =>
    rw [map_job_leaf_items, if_pos hps]
    have hmap : (partitions l (l.length / 100)).attach.map
        (fun c => map_job_leaf_items c.1)
        = (partitions l (l.length / 100)).attach.map (fun c => c.1) := by
      apply List.map_congr_left
      intro c _
      exact ih c
    rw [hmap, List.attach_map_subtype_val]
    exact flatten_partitions (by omega) l
  | case2 l hps =>
    rw [map_job_leaf_items, if_neg hps]

/-- Claim C4 (amended): the `map_job` recursion terminates (the definition of
`map_job_leaf_items` is well founded), its leaves invoke the operation on
exactly the input items, each once and in input order, and chunk boundaries
are contiguous slices; when `len(inputs) / 100 > 1` (integer division) each
direct child receives one contiguous chunk of that size, except possibly the
last child, which receives the shorter remainder; otherwise one direct child
is spawned per item. -/
theorem map_job_fanout (inputs : List α) :
    map_job_leaf_items inputs = inputs
    ∧ (map_job_children inputs).flatten = inputs
    ∧ (1 < inputs.length / 100 →
        map_job_children inputs = partitions inputs (inputs.length / 100)
        ∧ (∀ c ∈ (map_job_children inputs).dropLast,
            c.length = inputs.length / 100)
        ∧ (∀ c ∈ map_job_children inputs,
            0 < c.length ∧ c.length ≤ inputs.length / 100))
    ∧ (inputs.length / 100 ≤ 1 →
        map_job_children inputs = inputs.map (fun sample => [sample])) := by
  refine ⟨map_job_leaf_items_eq inputs, ?_, ?_, ?_⟩
  · by_cases h : 1 < inputs.length / 100
    · rw [map_job_children, if_pos h]
      exact flatten_partitions (by omega) inputs
    · rw [map_job_children, if_neg h]
      exact flatten_map_singleton inputs
  · intro h
    rw [map_job_children, if_pos h]
    exact ⟨rfl, fun c hc => dropLast_partitions_length c hc,
      fun c hc => length_mem_partitions hc⟩
  · intro h
    rw [map_job_children, if_neg (by omega)]

/-- Witness for C4's amended theorem at 250 items: chunks of size
`250 / 100 = 2`. -/
theorem map_job_fanout_witness :
    map_job_leaf_items (List.range 250) = List.range 250
    ∧ (map_job_children (List.range 250)).flatten = List.range 250 := by
  have h := map_job_fanout (List.range 250)
  exact ⟨h.1, h.2.1⟩

set_option maxRecDepth 8000 in
/-- Counterexample to claim C4 as stated: with 201 items the partition size
is `201 / 100 = 2`, yet the final direct child of the root scheduling node
receives a chunk of length 1, not 2 (the remainder). -/
theorem map_job_chunk_size_counterexample :
    (201 : Nat) / 100 = 2
    ∧ ((map_job_children (List.range 201)).map List.length).getLast?
        = some 1
    ∧ (1 : Nat) ≠ 201 / 100 := by
  refine ⟨rfl, ?_, by decide⟩
  decide

/-- Claim C9: artifact deletion is idempotent and tolerant of absent
handles. Running `cleanup_ids` twice over the same handle list leaves the
store as after one run, `None` entries are skipped, and deleting a handle
not in the store is a no-op (the embedding is total, so no call raises). -/
theorem cleanup_ids_idempotent_and_tolerant (store : List String)
    (ids_to_delete : List (Option String)) :
    cleanup_ids (cleanup_ids store ids_to_delete) ids_to_delete
        = cleanup_ids store ids_to_delete
    ∧ cleanup_ids store (none :: ids_to_delete) = cleanup_ids store ids_to_delete
    ∧ (∀ h, h ∉ store → deleteGlobalFile store h = store) :=
  ⟨cleanup_ids_idem store ids_to_delete,
   cleanup_ids_none_cons store ids_to_delete,
   fun h hh => deleteGlobalFile_absent store h hh⟩

/-- Witness for C9 at a concrete store and handle list (with a `None`
entry and a repeated handle). -/
theorem cleanup_ids_idempotent_and_tolerant_witness :
    cleanup_ids (cleanup_ids ["a", "b", "c"] [some "a", none, some "a", some "z"])
        [some "a", none, some "a", some "z"]
      = cleanup_ids ["a", "b", "c"] [some "a", none, some "a", some "z"] :=
  (cleanup_ids_idempotent_and_tolerant ["a", "b", "c"]
    [some "a", none, some "a", some "z"]).1

/-! ## The BamQC operation name (`toil_rnaseq.py`, `tools/qc.py`, claim C2)

`toil_rnaseq.py:25` is `from tools.qc import run_bamqc`, and the per-sample
builder (`toil_rnaseq.py:122`) wires the BamQC task as
`job.wrapJobFn(run_bamqc, aligned_bam_id=..., config=..., save_bam=...)`.
The name environment below transcribes every function the repository's
modules define (top-level `def` statements). -/

/-- Functions defined by `tools/qc.py`. -/
def tools_qc_defs : List String := ["run_fastqc", "run_bam_qc"]

/-- The names `toil_rnaseq.py` imports from `tools.qc` (lines 25-26). -/
def toil_rnaseq_imports_from_tools_qc : List String := ["run_bamqc", "run_fastqc"]

/-- Every top-level function name defined in the repository's Python
modules, by module. -/
def module_defs : List (String × List String) :=
  [("toil_rnaseq/rnaseq_cgl_pipeline.py",
    ["download_sample", "preprocessing_declaration", "pipeline_declaration",
     "star_alignment", "bam_qc", "rsem_quantification", "process_sample",
     "consolidate_output", "cleanup_ids", "sort_and_save_bam", "parse_samples",
     "generate_config", "generate_manifest", "generate_file", "move_or_upload",
     "main"]),
   ("toil_rnaseq/qc.py", ["run_bam_qc"]),
   ("toil_rnaseq/jobs.py",
    ["cleanup_ids", "download_and_process_bam", "assert_bam_is_paired_end",
     "index_bam", "convert_bam_to_fastq", "download_bam_from_gdc"]),
   ("toil_rnaseq/input_generation.py",
    ["root", "star_index", "rsem_index", "kallisto_index",
     "_create_transcriptome", "hera_index", "main"]),
   ("toil_rnaseq/toil_rnaseq.py", ["workflow", "main", "cli"]),
   ("toil_rnaseq/tools/qc.py", ["run_fastqc", "run_bam_qc"]),
   ("toil_rnaseq/tools/jobs.py",
    ["cleanup_ids", "map_job", "save_wiggle", "consolidate_output"]),
   ("toil_rnaseq/tools/quantifiers.py",
    ["run_kallisto", "run_rsem", "run_rsem_gene_mapping", "run_hera"]),
   ("toil_rnaseq/tools/aligners.py", ["run_star"]),
   ("toil_rnaseq/tools/preprocessing.py",
    ["run_cutadapt", "download_and_process_tar", "download_and_process_fastqs",
     "download_and_process_bam", "process_sample", "multiple_fastq_dowloading"]),
   ("toil_rnaseq/tools/bams.py",
    ["assert_bam_is_paired_end", "index_bam", "convert_bam_to_fastq",
     "download_bam_from_gdc", "sort_and_save_bam"]),
   ("toil_rnaseq/utils/jobs.py",
    ["cleanup_ids", "map_job", "multiple_fastq_dowloading", "save_wiggle",
     "consolidate_output", "process_sample"]),
   ("toil_rnaseq/utils/__init__.py",
    ["parse_samples", "generate_config", "user_input_config",
     "generate_manifest", "user_input_manifest", "configuration_sanity_checks",
     "docker_path", "rexpando", "_rexpando_iter_helper", "_key_to_attribute",
     "flatten", "partitions", "mkdir_p", "which", "require"]),
   ("toil_rnaseq/utils/files.py",
    ["tarball_files", "__forall_files", "copy_file_job", "move_files",
     "copy_files", "consolidate_tarballs_job", "generate_file"]),
   ("toil_rnaseq/utils/urls.py",
    ["download_url", "download_url_job", "s3am_upload", "_s3am_with_retry",
     "move_or_upload"]),
   ("toil_rnaseq/utils.py",
    ["parse_samples", "generate_config", "user_input_config",
     "generate_manifest", "user_input_manifest", "generate_file",
     "move_or_upload", "docker_path"])]

/-- Parameter names of `tools/qc.py:41 run_bam_qc(job, aligned_bam_id,
config)`. -/
def run_bam_qc_params : List String := ["job", "aligned_bam_id", "config"]

/-- Keyword arguments the builder passes to the BamQC operation at
`toil_rnaseq.py:122-123`. -/
def workflow_bamqc_call_kwargs : List String :=
  ["aligned_bam_id", "config", "save_bam", "disk", "cores"]

/-- Number of components of the tuple `run_bam_qc` returns
(`tools/qc.py:85`: `fail_flag` and the FileStoreID of the QC tarball). -/
def run_bam_qc_return_arity : Nat := 2

/-- Claim C2: the entry module imports (and the builder wires) an operation
named `run_bamqc` that no module of the source defines; the existing
deprecated `run_bam_qc` lacks the `save_bam` keyword parameter the builder
passes and returns a pair, not a single artifact handle. -/
theorem run_bamqc_undefined :
    "run_bamqc" ∈ toil_rnaseq_imports_from_tools_qc
    ∧ "run_bamqc" ∉ tools_qc_defs
    ∧ (∀ m ∈ module_defs, "run_bamqc" ∉ m.2)
    ∧ "save_bam" ∉ run_bam_qc_params
    ∧ "save_bam" ∈ workflow_bamqc_call_kwargs
    ∧ run_bam_qc_return_arity ≠ 1 := by
  decide

/-! ## Output consolidation naming (`tools/jobs.py: consolidate_output`,
`rnaseq_cgl_pipeline.py: consolidate_output`, claim C3) -/

/-- `tools/jobs.py:70`: the combined archive of the current pipeline is
named `config.uuid + '.tar.gz'`. The function's inputs are `config` and the
label-to-artifact mapping only: no QC failure signal reaches it and no
prefix is ever applied. -/
def consolidate_output_tar_name (uuid : String) : String :=
  uuid ++ ".tar.gz"

/-- `rnaseq_cgl_pipeline.py:324-340` (legacy pipeline): when alignment
output is present and `config.bamqc` is set, the tuple's `fail_flag`
prefixes the uuid (`config.uuid = 'FAIL.' + config.uuid if fail_flag else
config.uuid`) before the archive is named `config.uuid + '.tar.gz'`. -/
def legacy_consolidate_output_tar_name (bamqc has_rsem_star fail_flag : Bool)
    (uuid : String) : String :=
  (if has_rsem_star && bamqc && fail_flag then "FAIL." ++ uuid else uuid)
    ++ ".tar.gz"

theorem pyStartsWith_append (t r : String) : pyStartsWith (t ++ r) t = true := by
  simp only [pyStartsWith, String.data_append]
  exact List.isPrefixOf_iff_prefix.mpr (List.prefix_append t.data r.data)

/-- Claim C3 (amended): the failure prefix exists only in the legacy
pipeline's consolidator, where the archive name starts with `FAIL.` exactly
when alignment output is present, `bamqc` is enabled and the fail flag is
set; the consolidator of `tools/jobs.py` used by the current entry module
names the archive `uuid + '.tar.gz'` with no prefix regardless of any QC
outcome. -/
theorem consolidate_output_fail_marker (bamqc has_rsem_star fail_flag : Bool)
    (uuid : String)
    (hu : pyStartsWith (uuid ++ ".tar.gz") "FAIL." = false) :
    pyStartsWith
        (legacy_consolidate_output_tar_name bamqc has_rsem_star fail_flag uuid)
        "FAIL." = (has_rsem_star && bamqc && fail_flag)
    ∧ pyStartsWith (consolidate_output_tar_name uuid) "FAIL." = false := by
  constructor
  · rw [legacy_consolidate_output_tar_name]
    rcases hcond : has_rsem_star && bamqc && fail_flag
    · rw [if_neg (by simp [hcond])]
      exact hu
    · rw [if_pos (by simp [hcond]), String.append_assoc]
      exact pyStartsWith_append "FAIL." (uuid ++ ".tar.gz")
  · exact hu

/-- Witness for C3's amended theorem at a concrete failing and passing
sample. -/
theorem consolidate_output_fail_marker_witness :
    (pyStartsWith (legacy_consolidate_output_tar_name true true true "sample1")
        "FAIL." = (true && true && true)
      ∧ pyStartsWith (consolidate_output_tar_name "sample1") "FAIL." = false)
    ∧ pyStartsWith (legacy_consolidate_output_tar_name true true false "sample1")
        "FAIL." = (true && true && false) :=
  ⟨consolidate_output_fail_marker true true true "sample1" (by decide),
   (consolidate_output_fail_marker true true false "sample1" (by decide)).1⟩

/-- Counterexample to claim C3 as stated: the Output Consolidator of the
current pipeline (`tools/jobs.py: consolidate_output`, the one the entry
module schedules) names the archive of sample `sample1` plainly
`sample1.tar.gz`, without a `FAIL.` prefix, and its inputs carry no QC
failure signal at all; the prefix appears only in the legacy pipeline. -/
theorem consolidate_output_no_fail_marker_counterexample :
    consolidate_output_tar_name "sample1" = "sample1.tar.gz"
    ∧ pyStartsWith (consolidate_output_tar_name "sample1") "FAIL." = false
    ∧ pyStartsWith
        (legacy_consolidate_output_tar_name true true true "sample1")
        "FAIL." = true := by
  decide

/-! ## Paired-end verification of a BAM (`tools/bams.py:
assert_bam_is_paired_end`, claim C8)

The samtools invocation `samtools view -c -f 1 <bam> <region>` is the
external tool boundary; its per-region read counts enter the embedding as a
function from region names to counts. -/

/-- `tools/bams.py:33`: the two region spellings queried -- the given region
plus its variant with the `chr` prefix added (when absent) or stripped
(`region.lstrip('chr')` when present). -/
def assert_bam_regions (region : String) : List String :=
  if !containsSub region "chr" then [region, "chr" ++ region]
  else [region, String.mk (region.data.dropWhile (fun c => c ∈ ['c', 'h', 'r']))]

/-- `tools/bams.py:15 assert_bam_is_paired_end`: counts paired-flagged reads
(`-f 1`) in both region spellings and asserts that some count is nonzero;
the assertion message is the fixed string below (it does not include the
counts). -/
def assert_bam_is_paired_end (samtools_paired_count : String → Nat)
    (region : String) : Except PyErr Unit :=
  let results := (assert_bam_regions region).map samtools_paired_count
  if results.any (fun x => x ≠ 0) then .ok ()
  else .error (.assertionError "BAM is not paired-end, aborting run.")

/-- Claim C8 (amended): the check queries the fixed region under both
chromosome-naming conventions and raises a sample-fatal error exactly when
both counts are zero; the error carries a fixed message that does not
include the sampled counts. -/
theorem assert_bam_is_paired_end_spec (samtools_paired_count : String → Nat)
    (region : String) (hr : containsSub region "chr" = false) :
    assert_bam_regions region = [region, "chr" ++ region]
    ∧ ((∃ e, assert_bam_is_paired_end samtools_paired_count region = .error e)
        ↔ samtools_paired_count region = 0
          ∧ samtools_paired_count ("chr" ++ region) = 0)
    ∧ assert_bam_regions "chr6" = ["chr6", "6"] := by
  have hreg : assert_bam_regions region = [region, "chr" ++ region] := by
    rw [assert_bam_regions, if_pos (by simp [hr])]
  refine ⟨hreg, ?_, by decide⟩
  rw [assert_bam_is_paired_end, hreg]
  constructor
  · intro he
    rcases he with ⟨e, he⟩
    by_cases hz : samtools_paired_count region = 0
        ∧ samtools_paired_count ("chr" ++ region) = 0
    · exact hz
    · exfalso
      rw [if_pos ?_] at he
      · exact Except.noConfusion he
      · simp only [List.map_cons, List.map_nil, List.any_cons, List.any_nil]
        rcases Decidable.not_and_iff_or_not.mp hz with h | h <;> simp [h]
  · intro ⟨h1, h2⟩
    refine ⟨.assertionError "BAM is not paired-end, aborting run.", ?_⟩
    rw [if_neg]
    simp [h1, h2]

/-- Witness for C8's amended theorem: a BAM with zero paired-flagged reads
in both `6` and `chr6` fails the check. -/
theorem assert_bam_is_paired_end_spec_witness :
    assert_bam_regions "6" = ["6", "chr6"]
    ∧ ((∃ e, assert_bam_is_paired_end (fun _ => 0) "6" = .error e)
        ↔ (fun _ => (0 : Nat)) "6" = 0 ∧ (fun _ => (0 : Nat)) ("chr" ++ "6") = 0)
    ∧ assert_bam_regions "chr6" = ["chr6", "6"] :=
  assert_bam_is_paired_end_spec (fun _ => 0) "6" (by decide)

/-- Counterexample to claim C8 as stated: when both sampled counts are zero
the raised error is the fixed message `BAM is not paired-end, aborting
run.`, which does not contain the sampled region counts (not even the
digit `0`). -/
theorem assert_bam_error_has_no_counts_counterexample :
    assert_bam_is_paired_end (fun _ => 0) "chr6"
        = .error (.assertionError "BAM is not paired-end, aborting run.")
    ∧ containsSub "BAM is not paired-end, aborting run." "0" = false :=
  ⟨rfl, by decide⟩

/-! ## Workflow configuration (`utils/__init__.py:
configuration_sanity_checks`, `toil_rnaseq.py: workflow`, claim C6) -/

/-- `utils/__init__.py:11`: the URL schemes the workflow accepts. -/
def schemes : List String := ["file", "http", "s3", "ftp", "gdc"]

/-- The workflow configuration (`Expando` in the source): the fields the
embedded functions read. Optional string fields are `none` when the YAML
value is blank (Python `None`). -/
structure Config where
  kallisto_index : Option String := none
  star_index : Option String := none
  hera_index : Option String := none
  rsem_ref : Option String := none
  output_dir : Option String := none
  max_sample_size : String := "20G"
  fastqc : Bool := false
  bamqc : Bool := false
  cutadapt : Bool := false
  save_bam : Bool := false
  wiggle : Bool := false
  ci_test : Bool := false
  ssec : Option String := none
  gdc_token : Option String := none
  file_type : String := "fq"
  paired : Bool := false
  uuid : String := ""
  url : String := ""
  gz : Bool := false
deriving DecidableEq

/-- A possibly-`None` string read where Python would use the value. -/
def opt_str (o : Option String) : String := o.getD ""

/-- `utils/__init__.py:302`: the first configured reference input whose URL
scheme is not an accepted one, if any. -/
def file_inputs_bad (config : Config) : Option String :=
  (([config.kallisto_index, config.star_index, config.rsem_ref,
      config.hera_index].filterMap id).filter
    (fun x => !x.data.isEmpty)).find?
    (fun x => !(schemes.contains (urlscheme x)))

/-- `utils/__init__.py:308-317`: normalization of `config.output_dir` (the
`file://` strip, the local-path/S3 requirement and the trailing slash). The
source would raise `IndexError` on `split('file://')[1]` were the marker
absent, which the preceding scheme test precludes. -/
def normalize_output_dir (od : String) : Except PyErr String :=
  if !pyStartsWith od "/" then
    if urlscheme od == "file" then
      match (pySplit od "file://")[1]? with
      | some part =>
        if !pyStartsWith part "/" then
          .error (.userError "Output dir neither starts with / or is an S3 URL")
        else .ok (if !pyEndsWith part "/" then part ++ "/" else part)
      | none => .error .indexError
    else if !(urlscheme od == "s3") then
      .error (.userError "Output dir neither starts with / or is an S3 URL")
    else .ok (if !pyEndsWith od "/" then od ++ "/" else od)
  else .ok (if !pyEndsWith od "/" then od ++ "/" else od)

/-- `utils/__init__.py:284 configuration_sanity_checks`, in source order:
require some quantifier/aligner input; require STAR and RSEM together;
require accepted URL schemes; require and normalize the output location.
The trailing `mkdir_p` of a local output directory and the `which curl` /
`which docker` program checks touch only the host filesystem and `PATH`
(environment, not configuration) and are outside this pure embedding. -/
def configuration_sanity_checks (config : Config) : Except PyErr Config :=
  if !(pyTruthy config.kallisto_index || pyTruthy config.star_index
      || pyTruthy config.hera_index) then
    .error (.userError
      "URLs not provided for Kallisto, STAR, or Hera, so there is nothing to do!")
  else if (pyTruthy config.star_index || pyTruthy config.rsem_ref)
      && !(pyTruthy config.star_index && pyTruthy config.rsem_ref) then
    .error (.userError "Input provided for STAR or RSEM but not both.")
  else
    match file_inputs_bad config with
    | some bad =>
      .error (.userError
        ("Input " ++ bad ++ " in config must have the appropriate URL prefix"))
    | none =>
      if !pyTruthy config.output_dir then
        .error (.userError "No output location specified")
      else
        match normalize_output_dir (opt_str config.output_dir) with
        | .error e => .error e
        | .ok od => .ok { config with output_dir := some od }

/-- The acquire-stage job `toil_rnaseq.py:59-69` selects from the sample's
file type. -/
def acquire_node : String → String
  | "bam" => "download_and_process_bam"
  | "tar" => "download_and_process_tar"
  | _ => "download_and_process_fastqs"

/-- The alignment branch of the per-sample graph (`toil_rnaseq.py:101-150`):
present only when both `star_index` and `rsem_ref` are configured. -/
def alignment_branch_nodes (config : Config) : List String :=
  if pyTruthy config.star_index && pyTruthy config.rsem_ref then
    ["run_star"]
    ++ (if config.bamqc then ["run_bamqc"] else [])
    ++ (if config.save_bam && !config.bamqc then ["sort_and_save_bam"] else [])
    ++ (if config.wiggle then ["save_wiggle"] else [])
    ++ ["run_rsem", "run_rsem_gene_mapping"]
  else []

/-- The task nodes the per-sample builder `toil_rnaseq.py:43 workflow` wires
for one sample, given the merged per-sample configuration. -/
def workflow_nodes (config : Config) : List String :=
  [acquire_node config.file_type]
  ++ (if config.fastqc then ["run_fastqc"] else [])
  ++ (if pyTruthy config.kallisto_index then ["run_kallisto"] else [])
  ++ (if pyTruthy config.hera_index then ["run_hera"] else [])
  ++ alignment_branch_nodes config
  ++ ["cleanup_ids", "consolidate_output"]

theorem acquire_node_mem (file_type : String) :
    acquire_node file_type ∈ ["download_and_process_bam",
      "download_and_process_tar", "download_and_process_fastqs"] := by
  unfold acquire_node
  split <;> simp

/-- Claim C6: configuring exactly one of `star_index` and `rsem_ref` makes
configuration validation fail with a fatal error (validation runs in `main`
before `toil.start`, hence before any sample subtree is scheduled); with
neither configured the per-sample graph contains no alignment-branch node
(no STAR, RSEM, gene-name mapping or BamQC task). -/
theorem configuration_gating (config : Config) :
    (pyTruthy config.star_index ≠ pyTruthy config.rsem_ref →
      ∃ e, configuration_sanity_checks config = .error e)
    ∧ (pyTruthy config.star_index = false → pyTruthy config.rsem_ref = false →
        "run_star" ∉ workflow_nodes config
        ∧ "run_rsem" ∉ workflow_nodes config
        ∧ "run_rsem_gene_mapping" ∉ workflow_nodes config
        ∧ "run_bamqc" ∉ workflow_nodes config) := by
  constructor
  · simp only [configuration_sanity_checks]
    rcases hs : pyTruthy config.star_index <;>
      rcases hr : pyTruthy config.rsem_ref <;> intro hne
    · exact absurd rfl hne
    · rcases hk : pyTruthy config.kallisto_index <;>
        rcases hh : pyTruthy config.hera_index <;> exact ⟨_, rfl⟩
    · rcases hk : pyTruthy config.kallisto_index <;>
        rcases hh : pyTruthy config.hera_index <;> exact ⟨_, rfl⟩
    · exact absurd rfl hne
  · intro hs hr
    have hempty : alignment_branch_nodes config = [] := by
      rw [alignment_branch_nodes, hs]
      simp
    have hsub : ∀ n ∈ workflow_nodes config,
        n ∈ ["download_and_process_bam", "download_and_process_tar",
             "download_and_process_fastqs", "run_fastqc", "run_kallisto",
             "run_hera", "cleanup_ids", "consolidate_output"] := by
      intro n hn
      simp only [workflow_nodes, hempty, List.append_nil, List.nil_append,
        List.mem_append, List.mem_singleton, List.mem_cons, List.not_mem_nil,
        or_false] at hn
      rcases hn with (((h | h) | h) | h) | h | h
      · have := acquire_node_mem config.file_type
        rw [← h] at this
        simp only [List.mem_cons, List.mem_singleton] at this ⊢
        tauto
      · by_cases hf : config.fastqc
        · simp [hf] at h
          simp [h]
        · simp [hf] at h
      · by_cases hf : pyTruthy config.kallisto_index
        · simp [hf] at h
          simp [h]
        · simp [hf] at h
      · by_cases hf : pyTruthy config.hera_index
        · simp [hf] at h
          simp [h]
        · simp [hf] at h
      · simp [h]
      · simp [h]
    exact ⟨fun hmem => absurd (hsub _ hmem) (by decide),
      fun hmem => absurd (hsub _ hmem) (by decide),
      fun hmem => absurd (hsub _ hmem) (by decide),
      fun hmem => absurd (hsub _ hmem) (by decide)⟩

/-- Witness for C6 at concrete configurations: a STAR index without an RSEM
reference is rejected, and with neither configured the graph of a
Kallisto-only sample has no alignment nodes. -/
theorem configuration_gating_witness :
    (∃ e, configuration_sanity_checks
        { star_index := some "http://host/starIndex.tar.gz" } = .error e)
    ∧ "run_star" ∉ workflow_nodes
        { kallisto_index := some "http://host/kallisto.idx", fastqc := true } := by
  constructor
  · exact (configuration_gating
      { star_index := some "http://host/starIndex.tar.gz" }).1 (by decide)
  · exact ((configuration_gating
      { kallisto_index := some "http://host/kallisto.idx", fastqc := true }).2
      rfl rfl).1

/-! ## Manifest parsing (`utils/__init__.py: parse_samples`, claim C7) -/

/-- A manifest row: file type, pairing, sample id, URL(s). -/
abbrev Sample := String × String × String × String

/-- A manifest line is processed when it is neither whitespace-only nor
`#`-prefixed (`utils/__init__.py:26`). -/
def manifest_line_considered (line : String) : Bool :=
  !pyIsSpace line && !pyStartsWith line "#"

/-- Validation of one processed manifest line
(`utils/__init__.py:27-47`): strip, split on tabs, require exactly 4
columns, a known file type, a known pairing, and an even URL count for
paired fastq rows. -/
def parse_manifest_line (line : String) : Except PyErr Sample :=
  match pySplit (pyStrip line) "\t" with
  | [file_type, paired, uuid, url] =>
    if !(["tar", "fq", "bam"].contains file_type) then
      .error (.userError ("1st column is not valid. User: " ++ file_type))
    else if !(["paired", "single"].contains paired) then
      .error (.userError ("2nd column is not valid. User: " ++ paired))
    else if file_type == "fq" && paired == "paired"
        && !((pySplit url ",").length % 2 == 0) then
      .error (.userError
        ("Paired fastqs require an even number of URLs separated by a comma: User: "
          ++ url))
    else .ok (file_type, paired, uuid, url)
  | _ =>
    .error (.userError "Bad manifest format! Expected 4 tab separated columns")

/-- `utils/__init__.py:15 parse_samples` over the manifest's lines (as
`readlines` yields them): skip comment and blank lines, validate the rest in
order, fail at the first invalid line. -/
def parse_samples (lines : List String) : Except PyErr (List Sample) :=
  match lines with
  | [] => .ok []
  | line :: rest =>
    if manifest_line_considered line then
      match parse_manifest_line line with
      | .error e => .error e
      | .ok s =>
        match parse_samples rest with
        | .error e => .error e
        | .ok ss => .ok (s :: ss)
    else parse_samples rest

/-- The claim's acceptance condition on one line: after stripping, exactly 4
tab-separated fields, a file type among tar/fq/bam, a pairing among
paired/single, and an even comma-separated URL count when the first two
fields are fq and paired. -/
def manifest_line_valid (line : String) : Bool :=
  match pySplit (pyStrip line) "\t" with
  | [file_type, paired, _, url] =>
    ["tar", "fq", "bam"].contains file_type
    && ["paired", "single"].contains paired
    && (!(file_type == "fq" && paired == "paired")
        || (pySplit url ",").length % 2 == 0)
  | _ => false

theorem parse_manifest_line_ok_iff (line : String) :
    (∃ s, parse_manifest_line line = .ok s) ↔ manifest_line_valid line = true := by
  rw [parse_manifest_line, manifest_line_valid]
  rcases hsplit : pySplit (pyStrip line) "\t" with _ | ⟨ft, _ | ⟨p, _ | ⟨u, _ | ⟨url, _ | _⟩⟩⟩⟩ <;>
    simp only []
  · simp
  · simp
  · simp
  · simp
  · split_ifs <;> first | (simp_all; tauto) | simp_all
  · simp

theorem parse_samples_cons_skip (line : String) (rest : List String)
    (h : manifest_line_considered line = false) :
    parse_samples (line :: rest) = parse_samples rest := by
  rw [parse_samples, if_neg (by simp [h])]

theorem parse_samples_ok_iff (lines : List String) :
    (∃ samples, parse_samples lines = .ok samples)
      ↔ ∀ line ∈ lines, manifest_line_considered line = true →
          manifest_line_valid line = true := by
  induction lines with
  | nil => simp [parse_samples]
  | cons line rest ih =>
    by_cases hc : manifest_line_considered line
    · rw [parse_samples, if_pos hc]
      by_cases hv : manifest_line_valid line
      · rcases (parse_manifest_line_ok_iff line).mpr hv with ⟨s, hs⟩
        rw [hs]
        constructor
        · intro ⟨samples, hok⟩
          intro l hl hcl
          rcases List.mem_cons.mp hl with h | h
          · exact h ▸ hv
          · rcases hrest : parse_samples rest with e | ss
            · rw [hrest] at hok
              exact absurd hok (by simp)
            · exact ih.mp ⟨ss, hrest⟩ l h hcl
        · intro hall
          rcases ih.mpr (fun l hl => hall l (List.mem_cons_of_mem _ hl)) with ⟨ss, hss⟩
          rw [hss]
          exact ⟨s :: ss, rfl⟩
      · constructor
        · intro ⟨samples, hok⟩
          rcases hline : parse_manifest_line line with e | s
          · rw [hline] at hok
            exact absurd hok (by simp)
          · exact absurd ((parse_manifest_line_ok_iff line).mp ⟨s, hline⟩) hv
        · intro hall
          exact absurd (hall line (List.mem_cons_self line rest) hc) hv
    · rw [parse_samples_cons_skip line rest (by simpa using hc)]
      rw [ih]
      constructor
      · intro hall l hl hcl
        rcases List.mem_cons.mp hl with h | h
        · subst h
          exact absurd hcl (by simpa using hc)
        · exact hall l h hcl
      · intro hall l hl hcl
        exact hall l (List.mem_cons_of_mem _ hl) hcl

theorem parse_samples_ok_length (lines : List String) :
    ∀ samples, parse_samples lines = .ok samples →
      samples.length = (lines.filter manifest_line_considered).length := by
  induction lines with
  | nil =>
    intro samples h
    rw [parse_samples] at h
    cases h
    rfl
  | cons line rest ih =>
    intro samples h
    by_cases hc : manifest_line_considered line
    · rw [parse_samples, if_pos hc] at h
      rcases hline : parse_manifest_line line with e | s
      · rw [hline] at h
        exact absurd h (by simp)
      · rw [hline] at h
        rcases hrest : parse_samples rest with e | ss
        · rw [hrest] at h
          exact absurd h (by simp)
        · rw [hrest] at h
          cases h
          rw [List.filter_cons_of_pos hc]
          simp [ih ss hrest]
    · rw [parse_samples_cons_skip line rest (by simpa using hc)] at h
      rw [List.filter_cons_of_neg (by simpa using hc)]
      exact ih samples h

/-- Claim C7: manifest parsing accepts exactly the processed (non-blank,
non-`#`) lines that split into 4 tab-separated fields with a valid file
type, a valid pairing and (for paired fq rows) an even URL count; any other
processed line makes parsing fail with a `UserError`; comment and blank
lines are skipped and contribute no sample (each accepted line contributes
exactly one). -/
theorem parse_samples_spec (lines : List String) :
    ((∃ samples, parse_samples lines = .ok samples)
      ↔ ∀ line ∈ lines, manifest_line_considered line = true →
          manifest_line_valid line = true)
    ∧ (∀ samples, parse_samples lines = .ok samples →
        samples.length = (lines.filter manifest_line_considered).length)
    ∧ (∀ line rest, manifest_line_considered line = false →
        parse_samples (line :: rest) = parse_samples rest) :=
  ⟨parse_samples_ok_iff lines, parse_samples_ok_length lines,
   fun line rest h => parse_samples_cons_skip line rest h⟩

/-- Witness for C7 at a concrete manifest: a comment, a valid tar row, a
valid paired-fq row and a blank line parse to exactly the two samples. -/
theorem parse_samples_spec_witness :
    parse_samples
      ["#   filetype    paired/single  UUID  URL\n",
       "tar\tpaired\tuuid_1\tfile:///path/to/sample.tar\n",
       "fq\tpaired\tuuid_2\tfile:///a/R1.fq.gz,file:///a/R2.fq.gz\n",
       "\n"]
      = .ok [("tar", "paired", "uuid_1", "file:///path/to/sample.tar"),
             ("fq", "paired", "uuid_2",
              "file:///a/R1.fq.gz,file:///a/R2.fq.gz")]
    ∧ (∃ samples, parse_samples
        ["bad\tpaired\tuuid_3\tfile:///x"] = .ok samples) = False := by
  constructor
  · rfl
  · simp only [eq_iff_iff, iff_false]
    intro hok
    have := (parse_samples_spec ["bad\tpaired\tuuid_3\tfile:///x"]).1.mp hok
      "bad\tpaired\tuuid_3\tfile:///x" (by simp) (by decide)
    exact absurd this (by decide)

/-! ## Normalize stage (`tools/preprocessing.py:126 process_sample`,
claims C1, C5, C10)

`process_sample(job, config, input_tar=None, fastq_ids=None)` unpacks a
tarball (or reads each downloaded fastq to `Fastq_{i}_R1{ext}` /
`Fastq_{i}_R2{ext}`), classifies the files for paired data with the regex
`(?:^|[._-])(R[12]|[12]\.f)` searched over each basename in sorted order,
and concatenates each slot with `cat`/`zcat` -- unless the sample is already
exactly one uncompressed file per slot, in which case the original
FileStoreIDs are reused and not scheduled for deletion. The tar contents
enter the embedding as the list of extracted file paths; a written file's
FileStoreID is `"filestore:" ++ name`. -/

/-- A FileStoreID. -/
abbrev Handle := String

/-- The regex group `(R[12]|[12]\.f)` matched at one position, alternatives
in source order; yields the digit that decides the slot. -/
def markerDigit : List Char → Option Char
  | 'R' :: '1' :: _ => some '1'
  | 'R' :: '2' :: _ => some '2'
  | '1' :: '.' :: 'f' :: _ => some '1'
  | '2' :: '.' :: 'f' :: _ => some '2'
  | _ => none

/-- The `[._-]` branch of `(?:^|[._-])` tried at each later start position,
left to right. -/
def scanMarker : List Char → Option Char
  | [] => none
  | c :: rest =>
    (if c ∈ ['.', '_', '-'] then markerDigit rest else none) <|> scanMarker rest

/-- `re.search` of `(?:^|[._-])(R[12]|[12]\.f)` over a basename
(`tools/preprocessing.py:161`): the digit of the leftmost match's group, if
any (`'1' in match.group()` holds exactly for the `R1`/`1.f` alternatives,
`'2' in match.group()` for the others). -/
def reSearchDigit (s : String) : Option Char :=
  markerDigit s.data <|> scanMarker s.data

/-- The `UserError` message of `tools/preprocessing.py:165`. -/
def naming_convention_error (fastq : String) : String :=
  "FASTQ file name fails to meet required convention for paired reads (see documentation). "
    ++ fastq

/-- `tools/preprocessing.py:162-172`: walk the (sorted) file list appending
each file to `r1` or `r2` by its marker digit; raise at the first file whose
basename the pattern does not match. -/
def classify_fastqs : List String → Except PyErr (List String × List String)
  | [] => .ok ([], [])
  | fastq :: rest =>
    match reSearchDigit (basename fastq) with
    | none => .error (.userError (naming_convention_error fastq))
    | some c =>
      match classify_fastqs rest with
      | .error e => .error e
      | .ok (r1, r2) =>
        if c = '1' then .ok (fastq :: r1, r2) else .ok (r1, fastq :: r2)

/-- `tools/preprocessing.py:175`: `'zcat' if r1[0].endswith('.gz') and
r2[0].endswith('.gz') else 'cat'`, with Python's evaluation order (`r2[0]`
is reached only when `r1[0]` ends in `.gz`). -/
def concat_command (r1 r2 : List String) : Except PyErr String :=
  match pyIndex r1 0 with
  | .error e => .error e
  | .ok r1h =>
    if pyEndsWith r1h ".gz" then
      match pyIndex r2 0 with
      | .error e => .error e
      | .ok r2h => .ok (if pyEndsWith r2h ".gz" then "zcat" else "cat")
    else .ok "cat"

/-- `tools/preprocessing.py:193`: the single-ended command selection. -/
def single_command (fastqs : List String) : Except PyErr String :=
  match pyIndex fastqs 0 with
  | .error e => .error e
  | .ok f0 => .ok (if pyEndsWith f0 ".gz" then "zcat" else "cat")

/-- `toil_rnaseq.py:68`: `config.gz = True if
config.url.split(',')[0].endswith('gz') else None` -- the gz flag of a raw
fastq sample comes from the first URL alone. -/
def config_gz_flag (url : String) : Bool :=
  pyEndsWith ((pySplit url ",").getD 0 "") "gz"

/-- `tools/preprocessing.py:149-154`: the file names `readGlobalFile`
writes for downloaded fastqs (`Fastq_{i}_R1{ext}` for even `i`,
`Fastq_{i}_R2{ext}` for odd, `ext` from `config.gz`). -/
def fastq_filenames (gz : Bool) (n : Nat) : List String :=
  (List.range n).map (fun i =>
    "Fastq_" ++ toString i ++ (if i % 2 == 0 then "_R1" else "_R2")
      ++ (if gz then ".fq.gz" else ".fq"))

/-- The FileStoreID `job.fileStore.writeGlobalFile` returns for a newly
written file of the normalize stage. -/
def writeGlobalFile (name : String) : Handle :=
  "filestore:" ++ name

/-- `tools/preprocessing.py:204`: `[input_tar] + fastq_ids if delete_fastqs
and fastq_ids else [input_tar]` (a `None` tar handle stays in the list; the
cleanup job skips it). -/
def ids_to_delete_of (input_tar : Option Handle)
    (fastq_ids : Option (List Handle)) (delete_fastqs : Bool) :
    List (Option Handle) :=
  match fastq_ids with
  | some ids =>
    if delete_fastqs && !ids.isEmpty then [input_tar] ++ ids.map some
    else [input_tar]
  | none => [input_tar]

/-- What one `process_sample` run produced and scheduled. -/
structure ProcessOut where
  /-- `processed_r1`: the returned read-1 FileStoreID. -/
  processed_r1 : Handle
  /-- `processed_r2`: the returned read-2 FileStoreID (`None` for single). -/
  processed_r2 : Option Handle
  /-- The selected concatenation command, `cat` or `zcat`. -/
  command : String
  /-- Whether the short-circuit branch reused the original FileStoreIDs. -/
  reused_input_handles : Bool
  /-- Files written to the file store (`R1.fastq`, `R2.fastq`). -/
  new_files : List String
  /-- The argv of the read-1 concatenation (`[command] + r1`), `[]` when no
  concatenation ran. -/
  popen_r1 : List String
  /-- The argv of the read-2 concatenation. -/
  popen_r2 : List String
  /-- The handles handed to the follow-on `cleanup_ids` job. -/
  ids_to_delete : List (Option Handle)
  /-- Whether a `run_cutadapt` child was scheduled with the result. -/
  cutadapt_child : Bool
deriving DecidableEq

/-- `tools/preprocessing.py:126 process_sample`. `tar_contents` is the file
list the tarball unpacks to (used only when `input_tar` is given); resource
sizing (`disk = 2 * ...`) is out of scope. When both `input_tar` and
`fastq_ids` are `None`, line 150 iterates `enumerate(None)`: `TypeError`. -/
def process_sample (config : Config) (input_tar : Option Handle)
    (fastq_ids : Option (List Handle)) (tar_contents : List String) :
    Except PyErr ProcessOut :=
  match input_tar, fastq_ids with
  | none, none => .error .typeError
  | _, _ =>
    let fastqs : List String :=
      match input_tar with
      | some _ => tar_contents
      | none => fastq_filenames config.gz ((fastq_ids.getD []).length)
    if config.paired then
      match classify_fastqs (pySorted fastqs) with
      | .error e => .error e
      | .ok (r1, r2) =>
        if !(r1.length == r2.length) then
          .error (.userError "Check fastq names, uneven number of pairs found.")
        else
          match concat_command r1 r2 with
          | .error e => .error e
          | .ok command =>
            if command == "cat" && fastqs.length == 2 then
              match pySubscript fastq_ids 0 with
              | .error e => .error e
              | .ok p1 =>
                match pySubscript fastq_ids 1 with
                | .error e => .error e
                | .ok p2 =>
                  .ok { processed_r1 := p1, processed_r2 := some p2, command,
                        reused_input_handles := true, new_files := [],
                        popen_r1 := [], popen_r2 := [],
                        ids_to_delete :=
                          ids_to_delete_of input_tar fastq_ids false,
                        cutadapt_child := config.cutadapt }
            else
              .ok { processed_r1 := writeGlobalFile "R1.fastq",
                    processed_r2 := some (writeGlobalFile "R2.fastq"), command,
                    reused_input_handles := false,
                    new_files := ["R1.fastq", "R2.fastq"],
                    popen_r1 := command :: r1, popen_r2 := command :: r2,
                    ids_to_delete := ids_to_delete_of input_tar fastq_ids true,
                    cutadapt_child := config.cutadapt }
    else
      match single_command fastqs with
      | .error e => .error e
      | .ok command =>
        if command == "cat" && fastqs.length == 1 then
          match pySubscript fastq_ids 0 with
          | .error e => .error e
          | .ok p1 =>
            .ok { processed_r1 := p1, processed_r2 := none, command,
                  reused_input_handles := true, new_files := [],
                  popen_r1 := [], popen_r2 := [],
                  ids_to_delete := ids_to_delete_of input_tar fastq_ids false,
                  cutadapt_child := config.cutadapt }
        else
          .ok { processed_r1 := writeGlobalFile "R1.fastq",
                processed_r2 := none, command, reused_input_handles := false,
                new_files := ["R1.fastq"], popen_r1 := command :: fastqs,
                popen_r2 := [],
                ids_to_delete := ids_to_delete_of input_tar fastq_ids true,
                cutadapt_child := config.cutadapt }

theorem markerDigit_cases (l : List Char) :
    markerDigit l = none ∨ markerDigit l = some '1' ∨ markerDigit l = some '2' := by
  unfold markerDigit
  split <;> simp

theorem scanMarker_cases (l : List Char) :
    scanMarker l = none ∨ scanMarker l = some '1' ∨ scanMarker l = some '2' := by
  induction l with
  | nil => simp [scanMarker]
  | cons c rest ih =>
    rw [scanMarker]
    by_cases hc : c ∈ ['.', '_', '-']
    · rw [if_pos hc]
      rcases markerDigit_cases rest with h | h | h <;> rw [h] <;> simp [ih]
    · rw [if_neg hc]
      simpa using ih

theorem reSearchDigit_cases (s : String) :
    reSearchDigit s = none ∨ reSearchDigit s = some '1'
      ∨ reSearchDigit s = some '2' := by
  rw [reSearchDigit]
  rcases markerDigit_cases s.data with h | h | h <;> rw [h] <;>
    simp [scanMarker_cases s.data]

theorem classify_fastqs_ok_of_all (l : List String)
    (h : ∀ f ∈ l, reSearchDigit (basename f) ≠ none) :
    classify_fastqs l = .ok
      (l.filter (fun f => reSearchDigit (basename f) == some '1'),
       l.filter (fun f => reSearchDigit (basename f) == some '2')) := by
  induction l with
  | nil => rfl
  | cons f rest ih =>
    have hf := h f (List.mem_cons_self f rest)
    have hrest := ih (fun g hg => h g (List.mem_cons_of_mem _ hg))
    rcases reSearchDigit_cases (basename f) with h1 | h1 | h1
    · exact absurd h1 hf
    · rw [classify_fastqs, h1, hrest]
      simp [List.filter_cons, h1]
    · rw [classify_fastqs, h1, hrest]
      simp [List.filter_cons, h1]

theorem classify_fastqs_error_of_find (l : List String) (f : String)
    (h : l.find? (fun g => reSearchDigit (basename g) == none) = some f) :
    classify_fastqs l = .error (.userError (naming_convention_error f)) := by
  induction l with
  | nil => simp [List.find?] at h
  | cons g rest ih =>
    by_cases hg : (reSearchDigit (basename g) == none) = true
    · simp only [List.find?_cons, hg, cond_true] at h
      have hgf : g = f := Option.some.inj h
      subst hgf
      rw [classify_fastqs]
      rw [show reSearchDigit (basename g) = none from by simpa using hg]
    · have hg2 : (reSearchDigit (basename g) == none) = false := by
        simpa using hg
      simp only [List.find?_cons, hg2, cond_false] at h
      rcases reSearchDigit_cases (basename g) with h1 | h1 | h1
      · exact absurd (by simp [h1]) hg
      · rw [classify_fastqs, h1, ih h]
      · rw [classify_fastqs, h1, ih h]

/-- Claim C1 (amended): in the paired normalize stage files are processed in
sorted order and a file is classified as read-1 or read-2 exactly when the
search of `(?:^|[._-])(R[12]|[12]\.f)` over its basename succeeds, i.e. when
the basename contains `R1`/`R2`, or a `1`/`2` followed immediately by `.f`,
right after start-of-string, `.`, `_` or `-` (the marker need not sit
immediately before one of the four recognized extensions); the slot is the
matched digit, classification is deterministic and order-stable (the two
slots are the sorted list filtered by matched digit); the first
non-matching file in sorted order fails the sample with an error naming
that file, and unequal slot counts fail the sample before any tool runs. -/
theorem read_pair_classification (files : List String) :
    ((∀ f ∈ pySorted files, reSearchDigit (basename f) ≠ none) →
      classify_fastqs (pySorted files)
        = .ok ((pySorted files).filter
                 (fun f => reSearchDigit (basename f) == some '1'),
               (pySorted files).filter
                 (fun f => reSearchDigit (basename f) == some '2')))
    ∧ (∀ f, (pySorted files).find?
          (fun g => reSearchDigit (basename g) == none) = some f →
        classify_fastqs (pySorted files)
          = .error (.userError (naming_convention_error f)))
    ∧ (∀ r1 r2, classify_fastqs (pySorted files) = .ok (r1, r2) →
        r1.length ≠ r2.length →
        process_sample { paired := true } (some "tar-id") none files
          = .error (.userError
              "Check fastq names, uneven number of pairs found.")) := by
  refine ⟨classify_fastqs_ok_of_all (pySorted files),
    fun f hf => classify_fastqs_error_of_find (pySorted files) f hf, ?_⟩
  intro r1 r2 hcl hne
  have hbeq : (r1.length == r2.length) = false := by
    simpa using hne
  simp only [process_sample, hcl, hbeq]
  rfl

/-- Witness for C1's amended theorem at a concrete well-formed sample. -/
theorem read_pair_classification_witness :
    classify_fastqs (pySorted ["x.R1.fastq", "x.R2.fastq"])
      = .ok ((pySorted ["x.R1.fastq", "x.R2.fastq"]).filter
               (fun f => reSearchDigit (basename f) == some '1'),
             (pySorted ["x.R1.fastq", "x.R2.fastq"]).filter
               (fun f => reSearchDigit (basename f) == some '2')) :=
  (read_pair_classification ["x.R1.fastq", "x.R2.fastq"]).1 (by decide)

/-- The filename convention exactly as claim C1 states it (this definition
follows the claim's words, not the source, for comparison with the code's
`reSearchDigit`): `R1`/`R2` or `_1`/`_2` immediately before one of the
recognized extensions `.fastq`, `.fastq.gz`, `.fq`, `.fq.gz`, the marker
preceded by start-of-string, `.`, `_`, or `-`. -/
def claimPairConvention (name : String) : Bool :=
  [".fastq", ".fastq.gz", ".fq", ".fq.gz"].any (fun ext =>
    ["R1", "R2", "1", "2"].any (fun marker =>
      (marker ++ ext).data.isSuffixOf name.data
      && (name.data.length == (marker ++ ext).data.length
          || (name.data.getD
                (name.data.length - (marker ++ ext).data.length - 1) ' ')
              ∈ ['.', '_', '-'])))

/-- Counterexample to claim C1 as stated: the basenames `a_R1_x.txt` /
`a_R2_x.txt` match no recognized extension, so under the claimed convention
the sample must fail with a naming error; the code classifies both files
(the pattern only searches for a bounded `R1`/`R2` anywhere, or a digit
followed by `.f`) and proceeds. -/
theorem read_pair_classification_counterexample :
    classify_fastqs (pySorted ["a_R1_x.txt", "a_R2_x.txt"])
        = .ok (["a_R1_x.txt"], ["a_R2_x.txt"])
    ∧ claimPairConvention "a_R1_x.txt" = false
    ∧ claimPairConvention "a_R2_x.txt" = false :=
  ⟨rfl, by decide, by decide⟩

/-- Claim C5: the short-circuit reuse. For a raw-fastq sample delivered as
exactly one uncompressed read-1 and read-2 file, `process_sample` returns
the original FileStoreIDs, writes no new artifact and schedules no fastq
for deletion (`ids_to_delete = [None]`, which `cleanup_ids` skips). For the
same sample delivered as a tarball the short-circuit branch evaluates
`fastq_ids[0]` with `fastq_ids = None` and raises `TypeError`
(`tools/preprocessing.py:179`): the code crashes where the claim (and the
spec) promise handle reuse. -/
theorem process_sample_short_circuit_bug :
    process_sample { paired := true } (some "tar-handle") none
        ["sample_R1.fastq", "sample_R2.fastq"] = .error .typeError
    ∧ process_sample { paired := true } none (some ["r1-id", "r2-id"]) []
        = .ok { processed_r1 := "r1-id", processed_r2 := some "r2-id",
                command := "cat", reused_input_handles := true,
                new_files := [], popen_r1 := [], popen_r2 := [],
                ids_to_delete := [none], cutadapt_child := false } :=
  ⟨rfl, rfl⟩

/-- Claim C10 (amended): gzip handling in the normalize stage is decided
solely by the filename extension of the first file in each slot -- `zcat`
is selected iff both slot heads (or, in single mode, the single head) end
in `.gz`; with exactly one gzipped slot `cat` is selected, and when more
than two files are present the gzipped file is passed to the concatenation
as-is, with no error; for raw-fastq samples the gz flag comes from the
first URL's ending alone. (With exactly two files the short-circuit branch
runs instead of a concatenation; see the counterexample and claim C5.) -/
theorem gzip_handling :
    (∀ (h1 h2 : String) (t1 t2 : List String),
      concat_command (h1 :: t1) (h2 :: t2)
        = .ok (if pyEndsWith h1 ".gz" && pyEndsWith h2 ".gz"
               then "zcat" else "cat"))
    ∧ (∀ (h1 : String) (t1 : List String),
        single_command (h1 :: t1)
          = .ok (if pyEndsWith h1 ".gz" then "zcat" else "cat"))
    ∧ config_gz_flag "file:///a/sample.fq.gz,file:///a/other.fq" = true
    ∧ config_gz_flag "file:///a/sample.fq,file:///a/other.fq.gz" = false
    ∧ process_sample { paired := true } (some "tar-id") none
          ["a_R1.fq.gz", "a_R2.fq", "b_R1.fq", "b_R2.fq"]
        = .ok { processed_r1 := writeGlobalFile "R1.fastq",
                processed_r2 := some (writeGlobalFile "R2.fastq"),
                command := "cat", reused_input_handles := false,
                new_files := ["R1.fastq", "R2.fastq"],
                popen_r1 := ["cat", "a_R1.fq.gz", "b_R1.fq"],
                popen_r2 := ["cat", "a_R2.fq", "b_R2.fq"],
                ids_to_delete := [some "tar-id"],
                cutadapt_child := false } := by
  refine ⟨?_, ?_, by decide, by decide, rfl⟩
  · intro h1 h2 t1 t2
    by_cases he : pyEndsWith h1 ".gz" = true <;>
      simp [concat_command, pyIndex, pySubscript, he]
  · intro h1 t1
    simp [single_command, pyIndex, pySubscript]

/-- Counterexample to claim C10 as stated: for a tar sample whose two files
have exactly one gzipped slot head, `cat` is indeed selected, but no bytes
are concatenated into an output fastq and an error IS raised -- the
short-circuit branch (`command == 'cat' and len(fastqs) == 2`) runs instead
of a concatenation and crashes on `fastq_ids[0]` with `fastq_ids = None`. -/
theorem gzip_mixed_two_file_counterexample :
    concat_command ["s_R1.fq.gz"] ["s_R2.fq"] = .ok "cat"
    ∧ process_sample { paired := true } (some "tar-id2") none
        ["s_R1.fq.gz", "s_R2.fq"] = .error .typeError :=
  ⟨rfl, rfl⟩

end ToilRnaseq
